import Mathlib

/-!
Shallow embedding of the Fastly CLI command files:
FTP `describe`, Splunk/Datadog/Loggly `list`, and VCL snippet `update`.
Each Go `Exec` method becomes a pure Lean function from the command's
flag state and an environment of collaborators (service/version resolver,
API client methods, JSON marshaller, file system for the `--content`
flag) to an `ExecResult` recording the returned error, the resolver and
API invocations, the error-log entries and the bytes written to `out`.
-/

/-- Optional string flag state (cmd.OptionalString): a value plus a
was-set marker updated by the flag's Action callback. -/
structure OptionalString where
  value : String := ""
  wasSet : Bool := false
deriving DecidableEq, Repr

/-- Optional boolean flag state (cmd.OptionalBool). -/
structure OptionalBool where
  value : Bool := false
  wasSet : Bool := false
deriving DecidableEq, Repr

/-- Optional integer flag state (cmd.OptionalInt). -/
structure OptionalInt where
  value : Int := 0
  wasSet : Bool := false
deriving DecidableEq, Repr

/-- State of the --autoclone flag (cmd.OptionalAutoClone). -/
structure OptionalAutoClone where
  value : Bool := false
  wasSet : Bool := false
deriving DecidableEq, Repr

/-- State of the --service-name flag (cmd.OptionalServiceNameID). -/
structure OptionalServiceNameID where
  value : String := ""
  wasSet : Bool := false
deriving DecidableEq, Repr

/-- State of the required --version flag (cmd.OptionalServiceVersion);
its value is a literal number or a symbolic selector, kept as a string. -/
structure OptionalServiceVersion where
  value : String := ""
  wasSet : Bool := false
deriving DecidableEq, Repr

/-- The slice of manifest.Data the commands touch: the --service-id flag
destination (manifest.Flag.ServiceID). -/
structure ManifestData where
  flagServiceID : String := ""
deriving DecidableEq, Repr

/-- The slice of config.Data (cmd.Base Globals) the commands touch: the
global --verbose flag; Globals.Verbose() reads it. The APIClient and
ErrLog collaborators live in `Env` and `ExecResult` instead. -/
structure GlobalsData where
  verbose : Bool := false
deriving DecidableEq, Repr

/-- A fastly.Version; only its Number field is read by these commands. -/
structure Version where
  number : Int := 0
deriving DecidableEq, Repr

/-- Options passed to the cmd.ServiceDetails resolver. The APIClient and
Out collaborator handles of the Go struct are not data and are omitted;
all data fields the five commands populate are kept, with Go zero values
as defaults. -/
structure ServiceDetailsOpts where
  allowActiveLocked : Bool := false
  autoCloneFlag : OptionalAutoClone := {}
  manifest : ManifestData := {}
  serviceNameFlag : OptionalServiceNameID := {}
  serviceVersionFlag : OptionalServiceVersion := {}
  verboseMode : Bool := false
deriving DecidableEq, Repr

/-- Errors a command can return: the dedicated fsterr.ErrInvalidVerboseJSONCombo
sentinel, an opaque error coming from a collaborator (resolver, API client,
JSON marshaller), or a fmt.Errorf message built by input construction. -/
inductive CliError where
  | errInvalidVerboseJSONCombo
  | external (msg : String)
  | errorf (msg : String)
deriving DecidableEq, Repr

/-- A value stored in an error-log context map: a string, an int, or the
result of errors.ServiceVersion applied to a possibly-nil *fastly.Version
(recorded by its argument, since that rendering lives outside these files). -/
inductive LogCtxVal where
  | str (s : String)
  | int (n : Int)
  | versionCtx (v : Option Version)
deriving DecidableEq, Repr

/-- An entry recorded in the ErrLog error-tracking collaborator. -/
inductive LogEntry where
  | add (e : CliError)
  | addWithContext (e : CliError) (ctx : List (String × LogCtxVal))
deriving DecidableEq, Repr

/-- A cell handed to text.Table AddLine (Go passes interface values;
these commands pass strings and ints). -/
inductive Cell where
  | str (s : String)
  | int (n : Int)
deriving DecidableEq, Repr

/-- One unit written to the command's out writer: raw formatted text,
a text.Table (recorded by its header and rows), or a text.Success message. -/
inductive Out where
  | raw (s : String)
  | table (header : List String) (rows : List (List Cell))
  | success (msg : String)
deriving DecidableEq, Repr

/-- fastly.ListSplunksInput. -/
structure ListSplunksInput where
  serviceID : String := ""
  serviceVersion : Int := 0
deriving DecidableEq, Repr

/-- fastly.ListDatadogInput. -/
structure ListDatadogInput where
  serviceID : String := ""
  serviceVersion : Int := 0
deriving DecidableEq, Repr

/-- fastly.ListLogglyInput. -/
structure ListLogglyInput where
  serviceID : String := ""
  serviceVersion : Int := 0
deriving DecidableEq, Repr

/-- fastly.GetFTPInput; Name is filled at flag-parse time. -/
structure GetFTPInput where
  serviceID : String := ""
  serviceVersion : Int := 0
  name : String := ""
deriving DecidableEq, Repr

/-- fastly.UpdateSnippetInput: the fields the update command populates. -/
structure UpdateSnippetInput where
  name : String := ""
  serviceID : String := ""
  serviceVersion : Int := 0
  newName : Option String := none
  priority : Option Int := none
  content : Option String := none
  type : Option String := none
deriving DecidableEq, Repr

/-- fastly.UpdateDynamicSnippetInput: the fields the update command populates. -/
structure UpdateDynamicSnippetInput where
  id : String := ""
  serviceID : String := ""
  content : Option String := none
deriving DecidableEq, Repr

/-- A fastly.Splunk response record, limited to the fields these commands print. -/
structure Splunk where
  serviceID : String := ""
  serviceVersion : Int := 0
  name : String := ""
  url : String := ""
  token : String := ""
  tlsCACert : String := ""
  tlsHostname : String := ""
  tlsClientCert : String := ""
  tlsClientKey : String := ""
  format : String := ""
  formatVersion : Int := 0
  responseCondition : String := ""
  placement : String := ""
deriving DecidableEq, Repr

/-- A fastly.Datadog response record, limited to the fields these commands print. -/
structure Datadog where
  serviceID : String := ""
  serviceVersion : Int := 0
  name : String := ""
  token : String := ""
  region : String := ""
  format : String := ""
  formatVersion : Int := 0
  responseCondition : String := ""
  placement : String := ""
deriving DecidableEq, Repr

/-- A fastly.Loggly response record, limited to the fields these commands print. -/
structure Loggly where
  serviceID : String := ""
  serviceVersion : Int := 0
  name : String := ""
  token : String := ""
  format : String := ""
  formatVersion : Int := 0
  responseCondition : String := ""
  placement : String := ""
deriving DecidableEq, Repr

/-- A fastly.FTP response record, limited to the fields the describe command prints. -/
structure FTP where
  serviceID : String := ""
  serviceVersion : Int := 0
  name : String := ""
  address : String := ""
  port : Int := 0
  username : String := ""
  password : String := ""
  publicKey : String := ""
  path : String := ""
  period : Int := 0
  gzipLevel : Int := 0
  format : String := ""
  formatVersion : Int := 0
  responseCondition : String := ""
  timestampFormat : String := ""
  placement : String := ""
  compressionCodec : String := ""
deriving DecidableEq, Repr

/-- A fastly.Snippet response record, limited to the fields the update command prints. -/
structure SnippetRec where
  id : String := ""
  name : String := ""
  serviceID : String := ""
  serviceVersion : Int := 0
  type : String := ""
  priority : Int := 0
deriving DecidableEq, Repr

/-- A fastly.DynamicSnippet response record, limited to the fields the update command prints. -/
structure DynamicSnippetRec where
  id : String := ""
  serviceID : String := ""
deriving DecidableEq, Repr

/-- One recorded invocation of an API client method, with its input. -/
inductive ApiCall where
  | listSplunks (i : ListSplunksInput)
  | listDatadog (i : ListDatadogInput)
  | listLoggly (i : ListLogglyInput)
  | getFTP (i : GetFTPInput)
  | updateSnippet (i : UpdateSnippetInput)
  | updateDynamicSnippet (i : UpdateDynamicSnippetInput)
deriving DecidableEq, Repr

/-- Whether an API invocation is the versioned UpdateSnippet method. -/
def ApiCall.isUpdateSnippet : ApiCall → Bool
  | .updateSnippet _ => true
  | _ => false

/-- The observable outcome of one Exec run: the returned error (none is a
nil error, i.e. exit zero), the cmd.ServiceDetails invocations, the API
client invocations, the ErrLog entries, and the output written. -/
structure ExecResult where
  ret : Option CliError := none
  resolverCalls : List ServiceDetailsOpts := []
  apiCalls : List ApiCall := []
  errLog : List LogEntry := []
  output : List Out := []
deriving DecidableEq, Repr

/-- The environment of external collaborators: the cmd.ServiceDetails
resolver (on failure Go also returns the partially-resolved service ID and
a possibly-nil version, both used for logging), one method per API client
call these commands make, the JSON marshaller per response type, and the
file system consulted by cmd.Content. -/
structure Env where
  serviceDetails : ServiceDetailsOpts → Except (String × Option Version × CliError) (String × Version)
  listSplunks : ListSplunksInput → Except CliError (List Splunk)
  listDatadog : ListDatadogInput → Except CliError (List Datadog)
  listLoggly : ListLogglyInput → Except CliError (List Loggly)
  getFTP : GetFTPInput → Except CliError FTP
  updateSnippet : UpdateSnippetInput → Except CliError SnippetRec
  updateDynamicSnippet : UpdateDynamicSnippetInput → Except CliError DynamicSnippetRec
  marshalSplunks : List Splunk → Except CliError String
  marshalDatadog : List Datadog → Except CliError String
  marshalLoggly : List Loggly → Except CliError String
  marshalFTP : FTP → Except CliError String
  fs : String → Option String

/-- Modelled from the spec: cmd.Content is not among the sources; per the
flag help text ("VCL snippet passed as file path or content"), the value of
--content is replaced by the contents of the file it names when such a file
exists, and is otherwise used verbatim. -/
def Content (fs : String → Option String) (s : String) : String :=
  match fs s with
  | some fileContents => fileContents
  | none => s

/-- Flag state of the Splunk list command (pkg/commands/logging/splunk/list.go),
with Go zero values as defaults. -/
structure Splunk.ListCommand where
  globals : GlobalsData := {}
  manifest : ManifestData := {}
  input : ListSplunksInput := {}
  json : Bool := false
  serviceName : OptionalServiceNameID := {}
  serviceVersion : OptionalServiceVersion := {}
deriving DecidableEq, Repr

/-- The cmd.ServiceDetailsOpts value the Splunk list command builds. -/
def Splunk.listOpts (c : Splunk.ListCommand) : ServiceDetailsOpts :=
  { allowActiveLocked := true
    manifest := c.manifest
    serviceNameFlag := c.serviceName
    serviceVersionFlag := c.serviceVersion
    verboseMode := c.globals.verbose }

/-- c.Input after Exec assigns the resolved service ID and version number. -/
def Splunk.listInput (c : Splunk.ListCommand) (serviceID : String) (v : Version) :
    ListSplunksInput :=
  { c.input with serviceID := serviceID, serviceVersion := v.number }

/-- The verbose block Exec prints for the i-th of total Splunk endpoints. -/
def Splunk.verboseBlock (total : Nat) (i : Nat) (s : Splunk) : List Out :=
  [Out.raw ("\tSplunk " ++ toString (i + 1) ++ "/" ++ toString total ++ "\n"),
   Out.raw ("\t\tService ID: " ++ s.serviceID ++ "\n"),
   Out.raw ("\t\tVersion: " ++ toString s.serviceVersion ++ "\n"),
   Out.raw ("\t\tName: " ++ s.name ++ "\n"),
   Out.raw ("\t\tURL: " ++ s.url ++ "\n"),
   Out.raw ("\t\tToken: " ++ s.token ++ "\n"),
   Out.raw ("\t\tTLS CA certificate: " ++ s.tlsCACert ++ "\n"),
   Out.raw ("\t\tTLS hostname: " ++ s.tlsHostname ++ "\n"),
   Out.raw ("\t\tTLS client certificate: " ++ s.tlsClientCert ++ "\n"),
   Out.raw ("\t\tTLS client key: " ++ s.tlsClientKey ++ "\n"),
   Out.raw ("\t\tFormat: " ++ s.format ++ "\n"),
   Out.raw ("\t\tFormat version: " ++ toString s.formatVersion ++ "\n"),
   Out.raw ("\t\tResponse condition: " ++ s.responseCondition ++ "\n"),
   Out.raw ("\t\tPlacement: " ++ s.placement ++ "\n")]

/-- All verbose blocks, one per endpoint, in order. -/
def Splunk.verboseBlocks (ss : List Splunk) : List Out :=
  (ss.enum.map fun p => Splunk.verboseBlock ss.length p.1 p.2).flatten

/-- The table rows the non-verbose non-JSON branch adds, one per endpoint. -/
def Splunk.tableRows (ss : List Splunk) : List (List Cell) :=
  ss.map fun s => [Cell.str s.serviceID, Cell.int s.serviceVersion, Cell.str s.name]

/-- Exec of the Splunk list command (list.go lines 60-130). -/
def Splunk.ListCommand.exec (c : Splunk.ListCommand) (env : Env) : ExecResult :=
  if c.globals.verbose && c.json then
    { ret := some .errInvalidVerboseJSONCombo }
  else
    match env.serviceDetails (Splunk.listOpts c) with
    | .error (serviceID, serviceVersion, e) =>
        { ret := some e
          resolverCalls := [Splunk.listOpts c]
          errLog := [.addWithContext e
            [("Service ID", .str serviceID), ("Service Version", .versionCtx serviceVersion)]] }
    | .ok (serviceID, serviceVersion) =>
        let input := Splunk.listInput c serviceID serviceVersion
        match env.listSplunks input with
        | .error e =>
            { ret := some e
              resolverCalls := [Splunk.listOpts c]
              apiCalls := [.listSplunks input]
              errLog := [.add e] }
        | .ok splunks =>
            if !c.globals.verbose then
              if c.json then
                match env.marshalSplunks splunks with
                | .error e =>
                    { ret := some e
                      resolverCalls := [Splunk.listOpts c]
                      apiCalls := [.listSplunks input] }
                | .ok data =>
                    { resolverCalls := [Splunk.listOpts c]
                      apiCalls := [.listSplunks input]
                      output := [.raw data] }
              else
                { resolverCalls := [Splunk.listOpts c]
                  apiCalls := [.listSplunks input]
                  output := [.table ["SERVICE", "VERSION", "NAME"] (Splunk.tableRows splunks)] }
            else
              { resolverCalls := [Splunk.listOpts c]
                apiCalls := [.listSplunks input]
                output := Out.raw ("Version: " ++ toString input.serviceVersion ++ "\n")
                  :: Splunk.verboseBlocks splunks ++ [Out.raw "\n"] }

/-- Flag state of the Datadog list command, with Go zero values as defaults. -/
structure Datadog.ListCommand where
  globals : GlobalsData := {}
  manifest : ManifestData := {}
  input : ListDatadogInput := {}
  json : Bool := false
  serviceName : OptionalServiceNameID := {}
  serviceVersion : OptionalServiceVersion := {}
deriving DecidableEq, Repr

/-- The cmd.ServiceDetailsOpts value the Datadog list command builds. -/
def Datadog.listOpts (c : Datadog.ListCommand) : ServiceDetailsOpts :=
  { allowActiveLocked := true
    manifest := c.manifest
    serviceNameFlag := c.serviceName
    serviceVersionFlag := c.serviceVersion
    verboseMode := c.globals.verbose }

/-- c.Input after Exec assigns the resolved service ID and version number. -/
def Datadog.listInput (c : Datadog.ListCommand) (serviceID : String) (v : Version) :
    ListDatadogInput :=
  { c.input with serviceID := serviceID, serviceVersion := v.number }

/-- The verbose block Exec prints for the i-th of total Datadog endpoints. -/
def Datadog.verboseBlock (total : Nat) (i : Nat) (d : Datadog) : List Out :=
  [Out.raw ("\tDatadog " ++ toString (i + 1) ++ "/" ++ toString total ++ "\n"),
   Out.raw ("\t\tService ID: " ++ d.serviceID ++ "\n"),
   Out.raw ("\t\tVersion: " ++ toString d.serviceVersion ++ "\n"),
   Out.raw ("\t\tName: " ++ d.name ++ "\n"),
   Out.raw ("\t\tToken: " ++ d.token ++ "\n"),
   Out.raw ("\t\tRegion: " ++ d.region ++ "\n"),
   Out.raw ("\t\tFormat: " ++ d.format ++ "\n"),
   Out.raw ("\t\tFormat version: " ++ toString d.formatVersion ++ "\n"),
   Out.raw ("\t\tResponse condition: " ++ d.responseCondition ++ "\n"),
   Out.raw ("\t\tPlacement: " ++ d.placement ++ "\n")]

/-- All verbose blocks, one per endpoint, in order. -/
def Datadog.verboseBlocks (ds : List Datadog) : List Out :=
  (ds.enum.map fun p => Datadog.verboseBlock ds.length p.1 p.2).flatten

/-- The table rows the non-verbose non-JSON branch adds, one per endpoint. -/
def Datadog.tableRows (ds : List Datadog) : List (List Cell) :=
  ds.map fun d => [Cell.str d.serviceID, Cell.int d.serviceVersion, Cell.str d.name]

/-- Exec of the Datadog list command. -/
def Datadog.ListCommand.exec (c : Datadog.ListCommand) (env : Env) : ExecResult :=
  if c.globals.verbose && c.json then
    { ret := some .errInvalidVerboseJSONCombo }
  else
    match env.serviceDetails (Datadog.listOpts c) with
    | .error (serviceID, serviceVersion, e) =>
        { ret := some e
          resolverCalls := [Datadog.listOpts c]
          errLog := [.addWithContext e
            [("Service ID", .str serviceID), ("Service Version", .versionCtx serviceVersion)]] }
    | .ok (serviceID, serviceVersion) =>
        let input := Datadog.listInput c serviceID serviceVersion
        match env.listDatadog input with
        | .error e =>
            { ret := some e
              resolverCalls := [Datadog.listOpts c]
              apiCalls := [.listDatadog input]
              errLog := [.add e] }
        | .ok datadogs =>
            if !c.globals.verbose then
              if c.json then
                match env.marshalDatadog datadogs with
                | .error e =>
                    { ret := some e
                      resolverCalls := [Datadog.listOpts c]
                      apiCalls := [.listDatadog input] }
                | .ok data =>
                    { resolverCalls := [Datadog.listOpts c]
                      apiCalls := [.listDatadog input]
                      output := [.raw data] }
              else
                { resolverCalls := [Datadog.listOpts c]
                  apiCalls := [.listDatadog input]
                  output := [.table ["SERVICE", "VERSION", "NAME"] (Datadog.tableRows datadogs)] }
            else
              { resolverCalls := [Datadog.listOpts c]
                apiCalls := [.listDatadog input]
                output := Out.raw ("Version: " ++ toString input.serviceVersion ++ "\n")
                  :: Datadog.verboseBlocks datadogs ++ [Out.raw "\n"] }

/-- Flag state of the Loggly list command, with Go zero values as defaults. -/
structure Loggly.ListCommand where
  globals : GlobalsData := {}
  manifest : ManifestData := {}
  input : ListLogglyInput := {}
  json : Bool := false
  serviceName : OptionalServiceNameID := {}
  serviceVersion : OptionalServiceVersion := {}
deriving DecidableEq, Repr

/-- The cmd.ServiceDetailsOpts value the Loggly list command builds. -/
def Loggly.listOpts (c : Loggly.ListCommand) : ServiceDetailsOpts :=
  { allowActiveLocked := true
    manifest := c.manifest
    serviceNameFlag := c.serviceName
    serviceVersionFlag := c.serviceVersion
    verboseMode := c.globals.verbose }

/-- c.Input after Exec assigns the resolved service ID and version number. -/
def Loggly.listInput (c : Loggly.ListCommand) (serviceID : String) (v : Version) :
    ListLogglyInput :=
  { c.input with serviceID := serviceID, serviceVersion := v.number }

/-- The verbose block Exec prints for the i-th of total Loggly endpoints. -/
def Loggly.verboseBlock (total : Nat) (i : Nat) (l : Loggly) : List Out :=
  [Out.raw ("\tLoggly " ++ toString (i + 1) ++ "/" ++ toString total ++ "\n"),
   Out.raw ("\t\tService ID: " ++ l.serviceID ++ "\n"),
   Out.raw ("\t\tVersion: " ++ toString l.serviceVersion ++ "\n"),
   Out.raw ("\t\tName: " ++ l.name ++ "\n"),
   Out.raw ("\t\tToken: " ++ l.token ++ "\n"),
   Out.raw ("\t\tFormat: " ++ l.format ++ "\n"),
   Out.raw ("\t\tFormat version: " ++ toString l.formatVersion ++ "\n"),
   Out.raw ("\t\tResponse condition: " ++ l.responseCondition ++ "\n"),
   Out.raw ("\t\tPlacement: " ++ l.placement ++ "\n")]

/-- All verbose blocks, one per endpoint, in order. -/
def Loggly.verboseBlocks (ls : List Loggly) : List Out :=
  (ls.enum.map fun p => Loggly.verboseBlock ls.length p.1 p.2).flatten

/-- The table rows the non-verbose non-JSON branch adds, one per endpoint. -/
def Loggly.tableRows (ls : List Loggly) : List (List Cell) :=
  ls.map fun l => [Cell.str l.serviceID, Cell.int l.serviceVersion, Cell.str l.name]

/-- Exec of the Loggly list command. -/
def Loggly.ListCommand.exec (c : Loggly.ListCommand) (env : Env) : ExecResult :=
  if c.globals.verbose && c.json then
    { ret := some .errInvalidVerboseJSONCombo }
  else
    match env.serviceDetails (Loggly.listOpts c) with
    | .error (serviceID, serviceVersion, e) =>
        { ret := some e
          resolverCalls := [Loggly.listOpts c]
          errLog := [.addWithContext e
            [("Service ID", .str serviceID), ("Service Version", .versionCtx serviceVersion)]] }
    | .ok (serviceID, serviceVersion) =>
        let input := Loggly.listInput c serviceID serviceVersion
        match env.listLoggly input with
        | .error e =>
            { ret := some e
              resolverCalls := [Loggly.listOpts c]
              apiCalls := [.listLoggly input]
              errLog := [.add e] }
        | .ok logglys =>
            if !c.globals.verbose then
              if c.json then
                match env.marshalLoggly logglys with
                | .error e =>
                    { ret := some e
                      resolverCalls := [Loggly.listOpts c]
                      apiCalls := [.listLoggly input] }
                | .ok data =>
                    { resolverCalls := [Loggly.listOpts c]
                      apiCalls := [.listLoggly input]
                      output := [.raw data] }
              else
                { resolverCalls := [Loggly.listOpts c]
                  apiCalls := [.listLoggly input]
                  output := [.table ["SERVICE", "VERSION", "NAME"] (Loggly.tableRows logglys)] }
            else
              { resolverCalls := [Loggly.listOpts c]
                apiCalls := [.listLoggly input]
                output := Out.raw ("Version: " ++ toString input.serviceVersion ++ "\n")
                  :: Loggly.verboseBlocks logglys ++ [Out.raw "\n"] }

/-- Flag state of the FTP describe command (pkg/commands/logging/ftp/describe.go);
the --name flag writes straight into Input.Name. -/
structure Ftp.DescribeCommand where
  globals : GlobalsData := {}
  manifest : ManifestData := {}
  input : GetFTPInput := {}
  json : Bool := false
  serviceName : OptionalServiceNameID := {}
  serviceVersion : OptionalServiceVersion := {}
deriving DecidableEq, Repr

/-- The cmd.ServiceDetailsOpts value the FTP describe command builds. -/
def Ftp.describeOpts (c : Ftp.DescribeCommand) : ServiceDetailsOpts :=
  { allowActiveLocked := true
    manifest := c.manifest
    serviceNameFlag := c.serviceName
    serviceVersionFlag := c.serviceVersion
    verboseMode := c.globals.verbose }

/-- c.Input after Exec assigns the resolved service ID and version number;
the Name field set at flag-parse time is kept. -/
def Ftp.describeInput (c : Ftp.DescribeCommand) (serviceID : String) (v : Version) :
    GetFTPInput :=
  { c.input with serviceID := serviceID, serviceVersion := v.number }

/-- The field lines the plain-text branch of describe prints unconditionally
(describe.go lines 103-118), in order. -/
def Ftp.describeLines (f : FTP) : List Out :=
  [Out.raw ("Version: " ++ toString f.serviceVersion ++ "\n"),
   Out.raw ("Name: " ++ f.name ++ "\n"),
   Out.raw ("Address: " ++ f.address ++ "\n"),
   Out.raw ("Port: " ++ toString f.port ++ "\n"),
   Out.raw ("Username: " ++ f.username ++ "\n"),
   Out.raw ("Password: " ++ f.password ++ "\n"),
   Out.raw ("Public key: " ++ f.publicKey ++ "\n"),
   Out.raw ("Path: " ++ f.path ++ "\n"),
   Out.raw ("Period: " ++ toString f.period ++ "\n"),
   Out.raw ("GZip level: " ++ toString f.gzipLevel ++ "\n"),
   Out.raw ("Format: " ++ f.format ++ "\n"),
   Out.raw ("Format version: " ++ toString f.formatVersion ++ "\n"),
   Out.raw ("Response condition: " ++ f.responseCondition ++ "\n"),
   Out.raw ("Timestamp format: " ++ f.timestampFormat ++ "\n"),
   Out.raw ("Placement: " ++ f.placement ++ "\n"),
   Out.raw ("Compression codec: " ++ f.compressionCodec ++ "\n")]

/-- Exec of the FTP describe command (describe.go lines 60-121). -/
def Ftp.DescribeCommand.exec (c : Ftp.DescribeCommand) (env : Env) : ExecResult :=
  if c.globals.verbose && c.json then
    { ret := some .errInvalidVerboseJSONCombo }
  else
    match env.serviceDetails (Ftp.describeOpts c) with
    | .error (serviceID, serviceVersion, e) =>
        { ret := some e
          resolverCalls := [Ftp.describeOpts c]
          errLog := [.addWithContext e
            [("Service ID", .str serviceID), ("Service Version", .versionCtx serviceVersion)]] }
    | .ok (serviceID, serviceVersion) =>
        let input := Ftp.describeInput c serviceID serviceVersion
        match env.getFTP input with
        | .error e =>
            { ret := some e
              resolverCalls := [Ftp.describeOpts c]
              apiCalls := [.getFTP input]
              errLog := [.add e] }
        | .ok ftp =>
            if c.json then
              match env.marshalFTP ftp with
              | .error e =>
                  { ret := some e
                    resolverCalls := [Ftp.describeOpts c]
                    apiCalls := [.getFTP input] }
              | .ok data =>
                  { resolverCalls := [Ftp.describeOpts c]
                    apiCalls := [.getFTP input]
                    output := [.raw data] }
            else
              { resolverCalls := [Ftp.describeOpts c]
                apiCalls := [.getFTP input]
                output :=
                  (if !c.globals.verbose then
                    [Out.raw ("\nService ID: " ++ ftp.serviceID ++ "\n")]
                  else []) ++ Ftp.describeLines ftp }

/-- Flag state of the VCL snippet update command; --name and --snippet-id
are plain string flags, the rest carry was-set markers. -/
structure Snippet.UpdateCommand where
  globals : GlobalsData := {}
  autoClone : OptionalAutoClone := {}
  content : OptionalString := {}
  dynamic : OptionalBool := {}
  location : OptionalString := {}
  manifest : ManifestData := {}
  name : String := ""
  newName : OptionalString := {}
  priority : OptionalInt := {}
  serviceName : OptionalServiceNameID := {}
  serviceVersion : OptionalServiceVersion := {}
  snippetID : String := ""
deriving DecidableEq, Repr

/-- The cmd.ServiceDetailsOpts value the snippet update command builds:
no AllowActiveLocked field (so it stays false) and the user's --autoclone
flag passed through. -/
def Snippet.updateOpts (c : Snippet.UpdateCommand) : ServiceDetailsOpts :=
  { autoCloneFlag := c.autoClone
    manifest := c.manifest
    serviceNameFlag := c.serviceName
    serviceVersionFlag := c.serviceVersion
    verboseMode := c.globals.verbose }

/-- constructDynamicInput: builds a fastly.UpdateDynamicSnippetInput from the
flags; the serviceVersion argument is accepted but never written to the input. -/
def Snippet.UpdateCommand.constructDynamicInput (c : Snippet.UpdateCommand)
    (fs : String → Option String) (serviceID : String) (serviceVersion : Int) :
    Except CliError UpdateDynamicSnippetInput :=
  let input : UpdateDynamicSnippetInput := { id := c.snippetID, serviceID := serviceID }
  if c.newName.wasSet then
    .error (.errorf "error parsing arguments: --new-name is not supported when updating a dynamic VCL snippet")
  else if c.snippetID = "" then
    .error (.errorf "error parsing arguments: must provide --snippet-id to update a dynamic VCL snippet")
  else if c.content.wasSet then
    .ok { input with content := some (Content fs c.content.value) }
  else
    .ok input

/-- constructInput: builds a fastly.UpdateSnippetInput from the flags for the
versioned path. -/
def Snippet.UpdateCommand.constructInput (c : Snippet.UpdateCommand)
    (fs : String → Option String) (serviceID : String) (serviceVersion : Int) :
    Except CliError UpdateSnippetInput :=
  let input : UpdateSnippetInput :=
    { name := c.name, serviceID := serviceID, serviceVersion := serviceVersion }
  if c.snippetID ≠ "" then
    .error (.errorf "error parsing arguments: --snippet-id is not supported when updating a versioned VCL snippet")
  else if c.name = "" then
    .error (.errorf "error parsing arguments: must provide --name to update a versioned VCL snippet")
  else
    let input := if c.newName.wasSet then { input with newName := some c.newName.value } else input
    let input := if c.priority.wasSet then { input with priority := some c.priority.value } else input
    let input := if c.content.wasSet then { input with content := some (Content fs c.content.value) } else input
    let input := if c.location.wasSet then { input with type := some c.location.value } else input
    .ok input

/-- Exec of the snippet update command (part of the snippet package): resolve
the service and version with --autoclone honoured, then branch on --dynamic. -/
def Snippet.UpdateCommand.exec (c : Snippet.UpdateCommand) (env : Env) : ExecResult :=
  match env.serviceDetails (Snippet.updateOpts c) with
  | .error (serviceID, serviceVersion, e) =>
      { ret := some e
        resolverCalls := [Snippet.updateOpts c]
        errLog := [.addWithContext e
          [("Service ID", .str serviceID), ("Service Version", .versionCtx serviceVersion)]] }
  | .ok (serviceID, serviceVersion) =>
      if c.dynamic.wasSet then
        match c.constructDynamicInput env.fs serviceID serviceVersion.number with
        | .error e =>
            { ret := some e
              resolverCalls := [Snippet.updateOpts c]
              errLog := [.addWithContext e
                [("Service ID", .str serviceID), ("Service Version", .int serviceVersion.number)]] }
        | .ok input =>
            match env.updateDynamicSnippet input with
            | .error e =>
                { ret := some e
                  resolverCalls := [Snippet.updateOpts c]
                  apiCalls := [.updateDynamicSnippet input]
                  errLog := [.addWithContext e
                    [("Service ID", .str serviceID), ("Service Version", .int serviceVersion.number)]] }
            | .ok v =>
                { resolverCalls := [Snippet.updateOpts c]
                  apiCalls := [.updateDynamicSnippet input]
                  output := [.success ("Updated dynamic VCL snippet '" ++ v.id
                    ++ "' (service: " ++ v.serviceID ++ ")")] }
      else
        match c.constructInput env.fs serviceID serviceVersion.number with
        | .error e =>
            { ret := some e
              resolverCalls := [Snippet.updateOpts c]
              errLog := [.addWithContext e
                [("Service ID", .str serviceID), ("Service Version", .int serviceVersion.number)]] }
        | .ok input =>
            match env.updateSnippet input with
            | .error e =>
                { ret := some e
                  resolverCalls := [Snippet.updateOpts c]
                  apiCalls := [.updateSnippet input]
                  errLog := [.addWithContext e
                    [("Service ID", .str serviceID), ("Service Version", .int serviceVersion.number)]] }
            | .ok v =>
                { resolverCalls := [Snippet.updateOpts c]
                  apiCalls := [.updateSnippet input]
                  output := [.success ("Updated VCL snippet '" ++ v.name
                    ++ "' (previously: '" ++ input.name
                    ++ "', service: " ++ v.serviceID
                    ++ ", version: " ++ toString v.serviceVersion
                    ++ ", type: " ++ v.type
                    ++ ", priority: " ++ toString v.priority ++ ")")] }

/-- An empty file system for exercising cmd.Content. -/
def fsEmpty : String → Option String := fun _ => none

/-- A concrete version used by the sample environments. -/
def v1 : Version := { number := 1 }

/-- A sample environment in which every collaborator succeeds. -/
def envOk : Env :=
  { serviceDetails := fun _ => .ok ("svc", v1)
    listSplunks := fun _ => .ok []
    listDatadog := fun _ => .ok []
    listLoggly := fun _ => .ok []
    getFTP := fun _ => .ok {}
    updateSnippet := fun _ => .ok {}
    updateDynamicSnippet := fun _ => .ok {}
    marshalSplunks := fun _ => .ok "null"
    marshalDatadog := fun _ => .ok "null"
    marshalLoggly := fun _ => .ok "null"
    marshalFTP := fun _ => .ok "null"
    fs := fun _ => none }

/-- A sample environment whose service/version resolver fails. -/
def envResolverFail : Env :=
  { envOk with serviceDetails := fun _ => .error ("sv-partial", none, .external "resolver down") }

/-- A sample environment whose Splunk list API call fails. -/
def envListFail : Env :=
  { envOk with listSplunks := fun _ => .error (.external "api down") }

/-- A Splunk list command with all flags at their zero values. -/
def splunkCmd0 : Splunk.ListCommand := {}

/-- A Splunk list command with both --verbose and --json set. -/
def splunkCmdVJ : Splunk.ListCommand := { globals := { verbose := true }, json := true }

/-- A Splunk list command with only --verbose set. -/
def splunkCmdV : Splunk.ListCommand := { globals := { verbose := true } }

/-- A Datadog list command with all flags at their zero values. -/
def datadogCmd0 : Datadog.ListCommand := {}

/-- A Loggly list command with all flags at their zero values. -/
def logglyCmd0 : Loggly.ListCommand := {}

/-- An FTP describe command naming the endpoint to fetch. -/
def ftpCmd0 : Ftp.DescribeCommand := { input := { name := "logs" } }

/-- A snippet update command in versioned mode with a valid --name. -/
def updateCmdVersioned : Snippet.UpdateCommand := { name := "snip" }

/-- A snippet update command in versioned mode with --snippet-id wrongly set. -/
def updateCmdBadID : Snippet.UpdateCommand := { snippetID := "abc" }

/-- A snippet update command in dynamic mode with a --snippet-id. -/
def updateCmdDyn : Snippet.UpdateCommand :=
  { dynamic := { value := true, wasSet := true }, snippetID := "abc" }

/-- C1: for every command here that registers the --json flag (the FTP
describe and the Splunk, Datadog and Loggly list commands), setting both the
global --verbose flag and --json makes Exec return the dedicated
invalid-verbose-JSON-combination error at once: the service/version resolver
is never invoked, no API method is called, nothing is logged and nothing is
printed. The snippet update command registers no --json flag, so the
combination cannot arise for it. -/
theorem c1_verbose_json_fails_before_any_call (env : Env) :
    (∀ c : Splunk.ListCommand, c.globals.verbose = true → c.json = true →
      c.exec env = { ret := some CliError.errInvalidVerboseJSONCombo }) ∧
    (∀ c : Datadog.ListCommand, c.globals.verbose = true → c.json = true →
      c.exec env = { ret := some CliError.errInvalidVerboseJSONCombo }) ∧
    (∀ c : Loggly.ListCommand, c.globals.verbose = true → c.json = true →
      c.exec env = { ret := some CliError.errInvalidVerboseJSONCombo }) ∧
    (∀ c : Ftp.DescribeCommand, c.globals.verbose = true → c.json = true →
      c.exec env = { ret := some CliError.errInvalidVerboseJSONCombo }) := by
  refine ⟨fun c hv hj => ?_, fun c hv hj => ?_, fun c hv hj => ?_, fun c hv hj => ?_⟩
  · simp [Splunk.ListCommand.exec, hv, hj]
  · simp [Datadog.ListCommand.exec, hv, hj]
  · simp [Loggly.ListCommand.exec, hv, hj]
  · simp [Ftp.DescribeCommand.exec, hv, hj]

/-- Witness for C1 at the concrete Splunk list command with both flags set. -/
theorem c1_witness :
    splunkCmdVJ.globals.verbose = true ∧ splunkCmdVJ.json = true ∧
    splunkCmdVJ.exec envOk = { ret := some CliError.errInvalidVerboseJSONCombo } :=
  ⟨rfl, rfl, (c1_verbose_json_fails_before_any_call envOk).1 splunkCmdVJ rfl rfl⟩

/-- C2: in versioned mode, constructInput rejects a non-empty --snippet-id
with the exact first message, otherwise rejects an empty --name with the
exact second message, and in either situation Exec performs no update API
call at all. -/
theorem c2_versioned_update_validation :
    (∀ (fs : String → Option String) (c : Snippet.UpdateCommand) (serviceID : String)
        (serviceVersion : Int),
      c.snippetID ≠ "" →
        c.constructInput fs serviceID serviceVersion = .error (.errorf
          "error parsing arguments: --snippet-id is not supported when updating a versioned VCL snippet")) ∧
    (∀ (fs : String → Option String) (c : Snippet.UpdateCommand) (serviceID : String)
        (serviceVersion : Int),
      c.snippetID = "" → c.name = "" →
        c.constructInput fs serviceID serviceVersion = .error (.errorf
          "error parsing arguments: must provide --name to update a versioned VCL snippet")) ∧
    (∀ (c : Snippet.UpdateCommand) (env : Env),
      c.dynamic.wasSet = false → (c.snippetID ≠ "" ∨ c.name = "") →
        (c.exec env).apiCalls = []) := by
  refine ⟨fun fs c sid sv h => ?_, fun fs c sid sv h1 h2 => ?_, fun c env hdyn hor => ?_⟩
  · simp [Snippet.UpdateCommand.constructInput, h]
  · simp [Snippet.UpdateCommand.constructInput, h1, h2]
  · cases hres : env.serviceDetails (Snippet.updateOpts c) with
    | error x =>
        obtain ⟨sid, sv, e⟩ := x
        simp [Snippet.UpdateCommand.exec, hres]
    | ok x =>
        obtain ⟨sid, v⟩ := x
        rcases hor with h | h
        · by_cases hn : c.name = "" <;>
            simp [Snippet.UpdateCommand.exec, hres, hdyn,
              Snippet.UpdateCommand.constructInput, h, hn]
        · by_cases hs : c.snippetID = "" <;>
            simp [Snippet.UpdateCommand.exec, hres, hdyn,
              Snippet.UpdateCommand.constructInput, h, hs]

/-- Witness for C2 at a concrete versioned update command whose --snippet-id
was wrongly provided. -/
theorem c2_witness :
    updateCmdBadID.snippetID ≠ "" ∧
    updateCmdBadID.constructInput fsEmpty "svc" 1 = .error (.errorf
      "error parsing arguments: --snippet-id is not supported when updating a versioned VCL snippet") ∧
    updateCmdBadID.dynamic.wasSet = false ∧
    (updateCmdBadID.exec envOk).apiCalls = [] :=
  ⟨by decide,
   c2_versioned_update_validation.1 fsEmpty updateCmdBadID "svc" 1 (by decide),
   rfl,
   c2_versioned_update_validation.2.2 updateCmdBadID envOk rfl (Or.inl (by decide))⟩

/-- C3: in dynamic mode, constructDynamicInput rejects a provided --new-name
with the exact first message, otherwise rejects an empty --snippet-id with
the exact second message; Exec in dynamic mode never invokes the versioned
UpdateSnippet method, and when validation passes after a successful
resolution, the one API call made is UpdateDynamicSnippet. -/
theorem c3_dynamic_update_validation :
    (∀ (fs : String → Option String) (c : Snippet.UpdateCommand) (serviceID : String)
        (serviceVersion : Int),
      c.newName.wasSet = true →
        c.constructDynamicInput fs serviceID serviceVersion = .error (.errorf
          "error parsing arguments: --new-name is not supported when updating a dynamic VCL snippet")) ∧
    (∀ (fs : String → Option String) (c : Snippet.UpdateCommand) (serviceID : String)
        (serviceVersion : Int),
      c.newName.wasSet = false → c.snippetID = "" →
        c.constructDynamicInput fs serviceID serviceVersion = .error (.errorf
          "error parsing arguments: must provide --snippet-id to update a dynamic VCL snippet")) ∧
    (∀ (c : Snippet.UpdateCommand) (env : Env), c.dynamic.wasSet = true →
      ∀ a ∈ (c.exec env).apiCalls, a.isUpdateSnippet = false) ∧
    (∀ (c : Snippet.UpdateCommand) (env : Env) (sid : String) (v : Version),
      c.dynamic.wasSet = true →
      env.serviceDetails (Snippet.updateOpts c) = .ok (sid, v) →
      c.newName.wasSet = false → c.snippetID ≠ "" →
      (c.exec env).apiCalls = [ApiCall.updateDynamicSnippet
        { id := c.snippetID, serviceID := sid,
          content := if c.content.wasSet then
            some (Content env.fs c.content.value) else none }]) := by
  refine ⟨fun fs c sid sv h => ?_, fun fs c sid sv h1 h2 => ?_,
    fun c env hdyn a ha => ?_, fun c env sid v hdyn hres hn hs => ?_⟩
  · simp [Snippet.UpdateCommand.constructDynamicInput, h]
  · simp [Snippet.UpdateCommand.constructDynamicInput, h1, h2]
  · cases hres : env.serviceDetails (Snippet.updateOpts c) with
    | error x =>
        obtain ⟨sid, sv, e⟩ := x
        simp [Snippet.UpdateCommand.exec, hres] at ha
    | ok x =>
        obtain ⟨sid, v⟩ := x
        cases hci : c.constructDynamicInput env.fs sid v.number with
        | error e =>
            simp [Snippet.UpdateCommand.exec, hres, hdyn, hci] at ha
        | ok input =>
            cases hu : env.updateDynamicSnippet input with
            | error e =>
                simp [Snippet.UpdateCommand.exec, hres, hdyn, hci, hu] at ha
                simp [ha, ApiCall.isUpdateSnippet]
            | ok vres =>
                simp [Snippet.UpdateCommand.exec, hres, hdyn, hci, hu] at ha
                simp [ha, ApiCall.isUpdateSnippet]
  · have hci : c.constructDynamicInput env.fs sid v.number = .ok
        { id := c.snippetID, serviceID := sid,
          content := if c.content.wasSet then
            some (Content env.fs c.content.value) else none } := by
      by_cases hc : c.content.wasSet <;>
        simp [Snippet.UpdateCommand.constructDynamicInput, hn, hs, hc]
    cases hu : env.updateDynamicSnippet
        { id := c.snippetID, serviceID := sid,
          content := if c.content.wasSet then
            some (Content env.fs c.content.value) else none } with
    | error e => simp [Snippet.UpdateCommand.exec, hres, hdyn, hci, hu]
    | ok vres => simp [Snippet.UpdateCommand.exec, hres, hdyn, hci, hu]

/-- Witness for C3 at a concrete dynamic update command: the only API call
is UpdateDynamicSnippet. -/
theorem c3_witness :
    (updateCmdDyn.exec envOk).apiCalls = [ApiCall.updateDynamicSnippet
      { id := updateCmdDyn.snippetID, serviceID := "svc",
        content := if updateCmdDyn.content.wasSet then
          some (Content envOk.fs updateCmdDyn.content.value) else none }] :=
  c3_dynamic_update_validation.2.2.2 updateCmdDyn envOk "svc" v1 rfl rfl rfl (by decide)

/-- Every resolver invocation the Splunk list Exec makes uses its one opts value. -/
theorem splunk_resolver_sub (c : Splunk.ListCommand) (env : Env) :
    ∀ o ∈ (c.exec env).resolverCalls, o = Splunk.listOpts c := by
  intro o ho
  unfold Splunk.ListCommand.exec at ho
  simp only [] at ho
  repeat' split at ho
  all_goals simp_all

/-- Every resolver invocation the Datadog list Exec makes uses its one opts value. -/
theorem datadog_resolver_sub (c : Datadog.ListCommand) (env : Env) :
    ∀ o ∈ (c.exec env).resolverCalls, o = Datadog.listOpts c := by
  intro o ho
  unfold Datadog.ListCommand.exec at ho
  simp only [] at ho
  repeat' split at ho
  all_goals simp_all

/-- Every resolver invocation the Loggly list Exec makes uses its one opts value. -/
theorem loggly_resolver_sub (c : Loggly.ListCommand) (env : Env) :
    ∀ o ∈ (c.exec env).resolverCalls, o = Loggly.listOpts c := by
  intro o ho
  unfold Loggly.ListCommand.exec at ho
  simp only [] at ho
  repeat' split at ho
  all_goals simp_all

/-- Every resolver invocation the FTP describe Exec makes uses its one opts value. -/
theorem ftp_resolver_sub (c : Ftp.DescribeCommand) (env : Env) :
    ∀ o ∈ (c.exec env).resolverCalls, o = Ftp.describeOpts c := by
  intro o ho
  unfold Ftp.DescribeCommand.exec at ho
  simp only [] at ho
  repeat' split at ho
  all_goals simp_all

/-- Every resolver invocation the snippet update Exec makes uses its one opts value. -/
theorem snippet_resolver_sub (c : Snippet.UpdateCommand) (env : Env) :
    ∀ o ∈ (c.exec env).resolverCalls, o = Snippet.updateOpts c := by
  intro o ho
  unfold Snippet.UpdateCommand.exec at ho
  repeat' split at ho
  all_goals simp_all

/-- C4: every read-only command (the three list commands and describe) invokes
the service/version resolver with AllowActiveLocked set to true, while the
mutating snippet update command invokes it with AllowActiveLocked left false
and passes the user's --autoclone flag through instead. -/
theorem c4_allow_active_locked :
    (∀ (c : Splunk.ListCommand) (env : Env), ∀ o ∈ (c.exec env).resolverCalls,
      o.allowActiveLocked = true) ∧
    (∀ (c : Datadog.ListCommand) (env : Env), ∀ o ∈ (c.exec env).resolverCalls,
      o.allowActiveLocked = true) ∧
    (∀ (c : Loggly.ListCommand) (env : Env), ∀ o ∈ (c.exec env).resolverCalls,
      o.allowActiveLocked = true) ∧
    (∀ (c : Ftp.DescribeCommand) (env : Env), ∀ o ∈ (c.exec env).resolverCalls,
      o.allowActiveLocked = true) ∧
    (∀ (c : Snippet.UpdateCommand) (env : Env), ∀ o ∈ (c.exec env).resolverCalls,
      o.allowActiveLocked = false ∧ o.autoCloneFlag = c.autoClone) := by
  refine ⟨fun c env o ho => ?_, fun c env o ho => ?_, fun c env o ho => ?_,
    fun c env o ho => ?_, fun c env o ho => ?_⟩
  · rw [splunk_resolver_sub c env o ho]; rfl
  · rw [datadog_resolver_sub c env o ho]; rfl
  · rw [loggly_resolver_sub c env o ho]; rfl
  · rw [ftp_resolver_sub c env o ho]; rfl
  · rw [snippet_resolver_sub c env o ho]; exact ⟨rfl, rfl⟩

/-- Witness for C4 at concrete commands whose resolver is actually invoked. -/
theorem c4_witness :
    (Splunk.listOpts splunkCmd0 ∈ (splunkCmd0.exec envOk).resolverCalls ∧
      (Splunk.listOpts splunkCmd0).allowActiveLocked = true) ∧
    (Snippet.updateOpts updateCmdVersioned ∈
        (updateCmdVersioned.exec envOk).resolverCalls ∧
      (Snippet.updateOpts updateCmdVersioned).allowActiveLocked = false ∧
      (Snippet.updateOpts updateCmdVersioned).autoCloneFlag = updateCmdVersioned.autoClone) :=
  ⟨⟨by decide, c4_allow_active_locked.1 splunkCmd0 envOk _ (by decide)⟩,
   ⟨by decide, c4_allow_active_locked.2.2.2.2 updateCmdVersioned envOk _ (by decide)⟩⟩

/-- The service version stored in the updated Splunk list input. -/
theorem splunk_listInput_serviceVersion (c : Splunk.ListCommand) (sid : String) (v : Version) :
    (Splunk.listInput c sid v).serviceVersion = v.number := rfl

/-- The service version stored in the updated Datadog list input. -/
theorem datadog_listInput_serviceVersion (c : Datadog.ListCommand) (sid : String) (v : Version) :
    (Datadog.listInput c sid v).serviceVersion = v.number := rfl

/-- The service version stored in the updated Loggly list input. -/
theorem loggly_listInput_serviceVersion (c : Loggly.ListCommand) (sid : String) (v : Version) :
    (Loggly.listInput c sid v).serviceVersion = v.number := rfl

/-- C5: for every list command, after a successful API call the output takes
exactly one of three mutually exclusive shapes fixed by the flags: with
--json and verbose off, the JSON serialization of the response list and
nothing else; with neither flag, a single table whose header row is
SERVICE, VERSION, NAME with one row per endpoint; with --verbose, a
Version line followed by one indented multi-line block per endpoint and a
closing blank line. The exit status is success in all three. -/
theorem c5_list_output_shapes :
    (∀ (c : Splunk.ListCommand) (env : Env) (sid : String) (v : Version) (ss : List Splunk),
      env.serviceDetails (Splunk.listOpts c) = .ok (sid, v) →
      env.listSplunks (Splunk.listInput c sid v) = .ok ss →
      (∀ data, c.globals.verbose = false → c.json = true →
        env.marshalSplunks ss = .ok data →
        (c.exec env).ret = none ∧ (c.exec env).output = [Out.raw data]) ∧
      (c.globals.verbose = false → c.json = false →
        (c.exec env).ret = none ∧
        (c.exec env).output =
          [Out.table ["SERVICE", "VERSION", "NAME"] (Splunk.tableRows ss)]) ∧
      (c.globals.verbose = true → c.json = false →
        (c.exec env).ret = none ∧
        (c.exec env).output = Out.raw ("Version: " ++ toString v.number ++ "\n")
          :: Splunk.verboseBlocks ss ++ [Out.raw "\n"])) ∧
    (∀ (c : Datadog.ListCommand) (env : Env) (sid : String) (v : Version) (ds : List Datadog),
      env.serviceDetails (Datadog.listOpts c) = .ok (sid, v) →
      env.listDatadog (Datadog.listInput c sid v) = .ok ds →
      (∀ data, c.globals.verbose = false → c.json = true →
        env.marshalDatadog ds = .ok data →
        (c.exec env).ret = none ∧ (c.exec env).output = [Out.raw data]) ∧
      (c.globals.verbose = false → c.json = false →
        (c.exec env).ret = none ∧
        (c.exec env).output =
          [Out.table ["SERVICE", "VERSION", "NAME"] (Datadog.tableRows ds)]) ∧
      (c.globals.verbose = true → c.json = false →
        (c.exec env).ret = none ∧
        (c.exec env).output = Out.raw ("Version: " ++ toString v.number ++ "\n")
          :: Datadog.verboseBlocks ds ++ [Out.raw "\n"])) ∧
    (∀ (c : Loggly.ListCommand) (env : Env) (sid : String) (v : Version) (ls : List Loggly),
      env.serviceDetails (Loggly.listOpts c) = .ok (sid, v) →
      env.listLoggly (Loggly.listInput c sid v) = .ok ls →
      (∀ data, c.globals.verbose = false → c.json = true →
        env.marshalLoggly ls = .ok data →
        (c.exec env).ret = none ∧ (c.exec env).output = [Out.raw data]) ∧
      (c.globals.verbose = false → c.json = false →
        (c.exec env).ret = none ∧
        (c.exec env).output =
          [Out.table ["SERVICE", "VERSION", "NAME"] (Loggly.tableRows ls)]) ∧
      (c.globals.verbose = true → c.json = false →
        (c.exec env).ret = none ∧
        (c.exec env).output = Out.raw ("Version: " ++ toString v.number ++ "\n")
          :: Loggly.verboseBlocks ls ++ [Out.raw "\n"])) := by
  refine ⟨fun c env sid v ss hres hl => ?_, fun c env sid v ds hres hl => ?_,
    fun c env sid v ls hres hl => ?_⟩
  · refine ⟨fun data hv hj hm => ?_, fun hv hj => ?_, fun hv hj => ?_⟩
    · constructor <;>
        simp [Splunk.ListCommand.exec, hres, hl, hv, hj, hm]
    · constructor <;>
        simp [Splunk.ListCommand.exec, hres, hl, hv, hj]
    · constructor <;>
        simp [Splunk.ListCommand.exec, splunk_listInput_serviceVersion, hres, hl, hv, hj]
  · refine ⟨fun data hv hj hm => ?_, fun hv hj => ?_, fun hv hj => ?_⟩
    · constructor <;>
        simp [Datadog.ListCommand.exec, hres, hl, hv, hj, hm]
    · constructor <;>
        simp [Datadog.ListCommand.exec, hres, hl, hv, hj]
    · constructor <;>
        simp [Datadog.ListCommand.exec, datadog_listInput_serviceVersion, hres, hl, hv, hj]
  · refine ⟨fun data hv hj hm => ?_, fun hv hj => ?_, fun hv hj => ?_⟩
    · constructor <;>
        simp [Loggly.ListCommand.exec, hres, hl, hv, hj, hm]
    · constructor <;>
        simp [Loggly.ListCommand.exec, hres, hl, hv, hj]
    · constructor <;>
        simp [Loggly.ListCommand.exec, loggly_listInput_serviceVersion, hres, hl, hv, hj]

/-- Witness for C5 at the concrete zero-flag Splunk command in table mode. -/
theorem c5_witness :
    (splunkCmd0.exec envOk).ret = none ∧
    (splunkCmd0.exec envOk).output =
      [Out.table ["SERVICE", "VERSION", "NAME"] (Splunk.tableRows [])] :=
  ((c5_list_output_shapes.1 splunkCmd0 envOk "svc" v1 [] rfl rfl).2.1) rfl rfl

/-- C9: when the API returns an empty endpoint list, every list command still
succeeds; in table mode the output is a table holding only the
SERVICE/VERSION/NAME header row, and in verbose mode only the Version line
followed by a blank line, with no per-endpoint blocks. -/
theorem c9_empty_list_output :
    (∀ (c : Splunk.ListCommand) (env : Env) (sid : String) (v : Version),
      env.serviceDetails (Splunk.listOpts c) = .ok (sid, v) →
      env.listSplunks (Splunk.listInput c sid v) = .ok [] →
      (c.globals.verbose = false → c.json = false →
        (c.exec env).ret = none ∧
        (c.exec env).output = [Out.table ["SERVICE", "VERSION", "NAME"] []]) ∧
      (c.globals.verbose = true → c.json = false →
        (c.exec env).ret = none ∧
        (c.exec env).output =
          [Out.raw ("Version: " ++ toString v.number ++ "\n"), Out.raw "\n"])) ∧
    (∀ (c : Datadog.ListCommand) (env : Env) (sid : String) (v : Version),
      env.serviceDetails (Datadog.listOpts c) = .ok (sid, v) →
      env.listDatadog (Datadog.listInput c sid v) = .ok [] →
      (c.globals.verbose = false → c.json = false →
        (c.exec env).ret = none ∧
        (c.exec env).output = [Out.table ["SERVICE", "VERSION", "NAME"] []]) ∧
      (c.globals.verbose = true → c.json = false →
        (c.exec env).ret = none ∧
        (c.exec env).output =
          [Out.raw ("Version: " ++ toString v.number ++ "\n"), Out.raw "\n"])) ∧
    (∀ (c : Loggly.ListCommand) (env : Env) (sid : String) (v : Version),
      env.serviceDetails (Loggly.listOpts c) = .ok (sid, v) →
      env.listLoggly (Loggly.listInput c sid v) = .ok [] →
      (c.globals.verbose = false → c.json = false →
        (c.exec env).ret = none ∧
        (c.exec env).output = [Out.table ["SERVICE", "VERSION", "NAME"] []]) ∧
      (c.globals.verbose = true → c.json = false →
        (c.exec env).ret = none ∧
        (c.exec env).output =
          [Out.raw ("Version: " ++ toString v.number ++ "\n"), Out.raw "\n"])) := by
  refine ⟨fun c env sid v hres hl => ?_, fun c env sid v hres hl => ?_,
    fun c env sid v hres hl => ?_⟩
  · refine ⟨fun hv hj => ?_, fun hv hj => ?_⟩
    · constructor <;>
        simp [Splunk.ListCommand.exec, Splunk.tableRows, hres, hl, hv, hj]
    · constructor <;>
        simp [Splunk.ListCommand.exec, splunk_listInput_serviceVersion,
          Splunk.verboseBlocks, hres, hl, hv, hj]
  · refine ⟨fun hv hj => ?_, fun hv hj => ?_⟩
    · constructor <;>
        simp [Datadog.ListCommand.exec, Datadog.tableRows, hres, hl, hv, hj]
    · constructor <;>
        simp [Datadog.ListCommand.exec, datadog_listInput_serviceVersion,
          Datadog.verboseBlocks, hres, hl, hv, hj]
  · refine ⟨fun hv hj => ?_, fun hv hj => ?_⟩
    · constructor <;>
        simp [Loggly.ListCommand.exec, Loggly.tableRows, hres, hl, hv, hj]
    · constructor <;>
        simp [Loggly.ListCommand.exec, loggly_listInput_serviceVersion,
          Loggly.verboseBlocks, hres, hl, hv, hj]

/-- Witness for C9 at the concrete verbose Splunk command with an empty list. -/
theorem c9_witness :
    (splunkCmdV.exec envOk).ret = none ∧
    (splunkCmdV.exec envOk).output =
      [Out.raw ("Version: " ++ toString v1.number ++ "\n"), Out.raw "\n"] :=
  ((c9_empty_list_output.1 splunkCmdV envOk "svc" v1 rfl rfl).2) rfl rfl

/-- C10: in plain-text (non-JSON) mode the FTP describe command prints the
Service ID line only when verbose mode is off, while the remaining field
lines (Version, Name, Address, Port and the rest, as listed in
Ftp.describeLines) are printed in both modes. -/
theorem c10_ftp_plain_output :
    ∀ (c : Ftp.DescribeCommand) (env : Env) (sid : String) (v : Version) (f : FTP),
      c.json = false →
      env.serviceDetails (Ftp.describeOpts c) = .ok (sid, v) →
      env.getFTP (Ftp.describeInput c sid v) = .ok f →
      (c.globals.verbose = false →
        (c.exec env).output =
          Out.raw ("\nService ID: " ++ f.serviceID ++ "\n") :: Ftp.describeLines f) ∧
      (c.globals.verbose = true →
        (c.exec env).output = Ftp.describeLines f) := by
  intro c env sid v f hj hres hg
  refine ⟨fun hv => ?_, fun hv => ?_⟩
  · simp [Ftp.DescribeCommand.exec, hj, hres, hg, hv]
  · simp [Ftp.DescribeCommand.exec, hj, hres, hg, hv]

/-- Witness for C10 at the concrete describe command in non-verbose mode. -/
theorem c10_witness :
    (ftpCmd0.exec envOk).output =
      Out.raw ("\nService ID: " ++ FTP.serviceID {} ++ "\n") :: Ftp.describeLines {} :=
  (c10_ftp_plain_output ftpCmd0 envOk "svc" v1 {} rfl rfl rfl).1 rfl

/-- C7: request-input construction is deterministic in the flags: two update
command states that agree on every flag consulted by constructInput and
constructDynamicInput produce identical input structs against the same file
system, service ID and service version. -/
theorem c7_construct_deterministic :
    ∀ (fs : String → Option String) (c1 c2 : Snippet.UpdateCommand)
      (serviceID : String) (serviceVersion : Int),
      c1.name = c2.name → c1.snippetID = c2.snippetID → c1.newName = c2.newName →
      c1.priority = c2.priority → c1.content = c2.content → c1.location = c2.location →
      c1.constructInput fs serviceID serviceVersion =
        c2.constructInput fs serviceID serviceVersion ∧
      c1.constructDynamicInput fs serviceID serviceVersion =
        c2.constructDynamicInput fs serviceID serviceVersion := by
  intro fs c1 c2 sid sv h1 h2 h3 h4 h5 h6
  constructor
  · simp only [Snippet.UpdateCommand.constructInput]
    rw [h1, h2, h3, h4, h5, h6]
  · simp only [Snippet.UpdateCommand.constructDynamicInput]
    rw [h2, h3, h5]

/-- Witness for C7 at two identical concrete update commands. -/
theorem c7_witness :
    updateCmdVersioned.constructInput fsEmpty "svc" 1 =
      updateCmdVersioned.constructInput fsEmpty "svc" 1 ∧
    updateCmdVersioned.constructDynamicInput fsEmpty "svc" 1 =
      updateCmdVersioned.constructDynamicInput fsEmpty "svc" 1 :=
  c7_construct_deterministic fsEmpty updateCmdVersioned updateCmdVersioned "svc" 1
    rfl rfl rfl rfl rfl rfl

/-- C8: the dynamic update input never receives the resolved service version
(the result is independent of that argument) and is also independent of the
--name, --priority and --type flags, which are silently ignored; when the
dynamic validation passes, the input carries exactly the snippet ID, the
service ID and, when --content was set, the resolved content. -/
theorem c8_dynamic_input_independence :
    (∀ (fs : String → Option String) (c c2 : Snippet.UpdateCommand) (sid : String)
        (sv sv2 : Int),
      c2.snippetID = c.snippetID → c2.newName = c.newName → c2.content = c.content →
      c.constructDynamicInput fs sid sv = c2.constructDynamicInput fs sid sv2) ∧
    (∀ (fs : String → Option String) (c : Snippet.UpdateCommand) (sid : String) (sv : Int),
      c.newName.wasSet = false → c.snippetID ≠ "" →
      c.constructDynamicInput fs sid sv = .ok
        { id := c.snippetID, serviceID := sid,
          content := if c.content.wasSet then
            some (Content fs c.content.value) else none }) := by
  constructor
  · intro fs c c2 sid sv sv2 h1 h2 h3
    simp only [Snippet.UpdateCommand.constructDynamicInput]
    rw [h1, h2, h3]
  · intro fs c sid sv hn hs
    by_cases hc : c.content.wasSet <;>
      simp [Snippet.UpdateCommand.constructDynamicInput, hn, hs, hc]

/-- Witness for C8: a command with --priority, --type and --name set is
treated exactly like one without them, and yields the bare dynamic input. -/
theorem c8_witness :
    updateCmdDyn.constructDynamicInput fsEmpty "svc" 1 =
      ({ updateCmdDyn with
        name := "other"
        priority := { value := 5, wasSet := true }
        location := { value := "init", wasSet := true }
        } : Snippet.UpdateCommand).constructDynamicInput fsEmpty "svc" 7 ∧
    updateCmdDyn.constructDynamicInput fsEmpty "svc" 1 = .ok
      { id := updateCmdDyn.snippetID, serviceID := "svc",
        content := if updateCmdDyn.content.wasSet then
          some (Content fsEmpty updateCmdDyn.content.value) else none } :=
  ⟨c8_dynamic_input_independence.1 fsEmpty updateCmdDyn
      { updateCmdDyn with
        name := "other"
        priority := { value := 5, wasSet := true }
        location := { value := "init", wasSet := true } } "svc" 1 7 rfl rfl rfl,
   c8_dynamic_input_independence.2 fsEmpty updateCmdDyn "svc" 1 rfl (by decide)⟩

/-- Counterexample to C6's claim that Exec returns a non-nil error exactly
when the resolver or an API call errors: with --verbose and --json both set,
the Splunk list Exec returns an error although the resolver and the API are
never invoked at all (so neither produced one), and nothing is logged. -/
theorem c6_counterexample :
    (splunkCmdVJ.exec envOk).ret = some CliError.errInvalidVerboseJSONCombo ∧
    (splunkCmdVJ.exec envOk).resolverCalls = [] ∧
    (splunkCmdVJ.exec envOk).apiCalls = [] ∧
    (splunkCmdVJ.exec envOk).errLog = [] := by
  refine ⟨rfl, rfl, rfl, rfl⟩

/-- C6 as amended: whenever the service/version resolver or a resource API
call returns an error, every command records that error in the error-tracking
collaborator (with Service ID and Service Version context fields for
resolution errors) and Exec returns that same non-nil error; these are,
however, not the only non-nil returns, as Exec can also fail before any
resolver or API activity (invalid flag combination, input construction,
JSON marshalling). -/
theorem c6_error_logging_amended :
    (∀ (c : Splunk.ListCommand) (env : Env) (sid : String) (sv : Option Version)
        (e : CliError),
      (c.globals.verbose && c.json) = false →
      env.serviceDetails (Splunk.listOpts c) = .error (sid, sv, e) →
      (c.exec env).errLog = [LogEntry.addWithContext e
        [("Service ID", .str sid), ("Service Version", .versionCtx sv)]] ∧
      (c.exec env).ret = some e) ∧
    (∀ (c : Splunk.ListCommand) (env : Env) (sid : String) (v : Version) (e : CliError),
      (c.globals.verbose && c.json) = false →
      env.serviceDetails (Splunk.listOpts c) = .ok (sid, v) →
      env.listSplunks (Splunk.listInput c sid v) = .error e →
      (c.exec env).errLog = [LogEntry.add e] ∧ (c.exec env).ret = some e) ∧
    (∀ (c : Datadog.ListCommand) (env : Env) (sid : String) (sv : Option Version)
        (e : CliError),
      (c.globals.verbose && c.json) = false →
      env.serviceDetails (Datadog.listOpts c) = .error (sid, sv, e) →
      (c.exec env).errLog = [LogEntry.addWithContext e
        [("Service ID", .str sid), ("Service Version", .versionCtx sv)]] ∧
      (c.exec env).ret = some e) ∧
    (∀ (c : Datadog.ListCommand) (env : Env) (sid : String) (v : Version) (e : CliError),
      (c.globals.verbose && c.json) = false →
      env.serviceDetails (Datadog.listOpts c) = .ok (sid, v) →
      env.listDatadog (Datadog.listInput c sid v) = .error e →
      (c.exec env).errLog = [LogEntry.add e] ∧ (c.exec env).ret = some e) ∧
    (∀ (c : Loggly.ListCommand) (env : Env) (sid : String) (sv : Option Version)
        (e : CliError),
      (c.globals.verbose && c.json) = false →
      env.serviceDetails (Loggly.listOpts c) = .error (sid, sv, e) →
      (c.exec env).errLog = [LogEntry.addWithContext e
        [("Service ID", .str sid), ("Service Version", .versionCtx sv)]] ∧
      (c.exec env).ret = some e) ∧
    (∀ (c : Loggly.ListCommand) (env : Env) (sid : String) (v : Version) (e : CliError),
      (c.globals.verbose && c.json) = false →
      env.serviceDetails (Loggly.listOpts c) = .ok (sid, v) →
      env.listLoggly (Loggly.listInput c sid v) = .error e →
      (c.exec env).errLog = [LogEntry.add e] ∧ (c.exec env).ret = some e) ∧
    (∀ (c : Ftp.DescribeCommand) (env : Env) (sid : String) (sv : Option Version)
        (e : CliError),
      (c.globals.verbose && c.json) = false →
      env.serviceDetails (Ftp.describeOpts c) = .error (sid, sv, e) →
      (c.exec env).errLog = [LogEntry.addWithContext e
        [("Service ID", .str sid), ("Service Version", .versionCtx sv)]] ∧
      (c.exec env).ret = some e) ∧
    (∀ (c : Ftp.DescribeCommand) (env : Env) (sid : String) (v : Version) (e : CliError),
      (c.globals.verbose && c.json) = false →
      env.serviceDetails (Ftp.describeOpts c) = .ok (sid, v) →
      env.getFTP (Ftp.describeInput c sid v) = .error e →
      (c.exec env).errLog = [LogEntry.add e] ∧ (c.exec env).ret = some e) ∧
    (∀ (c : Snippet.UpdateCommand) (env : Env) (sid : String) (sv : Option Version)
        (e : CliError),
      env.serviceDetails (Snippet.updateOpts c) = .error (sid, sv, e) →
      (c.exec env).errLog = [LogEntry.addWithContext e
        [("Service ID", .str sid), ("Service Version", .versionCtx sv)]] ∧
      (c.exec env).ret = some e) ∧
    (∀ (c : Snippet.UpdateCommand) (env : Env) (sid : String) (v : Version)
        (input : UpdateDynamicSnippetInput) (e : CliError),
      env.serviceDetails (Snippet.updateOpts c) = .ok (sid, v) →
      c.dynamic.wasSet = true →
      c.constructDynamicInput env.fs sid v.number = .ok input →
      env.updateDynamicSnippet input = .error e →
      (c.exec env).errLog = [LogEntry.addWithContext e
        [("Service ID", .str sid), ("Service Version", .int v.number)]] ∧
      (c.exec env).ret = some e) ∧
    (∀ (c : Snippet.UpdateCommand) (env : Env) (sid : String) (v : Version)
        (input : UpdateSnippetInput) (e : CliError),
      env.serviceDetails (Snippet.updateOpts c) = .ok (sid, v) →
      c.dynamic.wasSet = false →
      c.constructInput env.fs sid v.number = .ok input →
      env.updateSnippet input = .error e →
      (c.exec env).errLog = [LogEntry.addWithContext e
        [("Service ID", .str sid), ("Service Version", .int v.number)]] ∧
      (c.exec env).ret = some e) := by
  refine ⟨fun c env sid sv e hv hres => ?_, fun c env sid v e hv hres hl => ?_,
    fun c env sid sv e hv hres => ?_, fun c env sid v e hv hres hl => ?_,
    fun c env sid sv e hv hres => ?_, fun c env sid v e hv hres hl => ?_,
    fun c env sid sv e hv hres => ?_, fun c env sid v e hv hres hl => ?_,
    fun c env sid sv e hres => ?_, fun c env sid v input e hres hd hci hu => ?_,
    fun c env sid v input e hres hd hci hu => ?_⟩
  · constructor <;> simp [Splunk.ListCommand.exec, hv, hres]
  · constructor <;> simp [Splunk.ListCommand.exec, hv, hres, hl]
  · constructor <;> simp [Datadog.ListCommand.exec, hv, hres]
  · constructor <;> simp [Datadog.ListCommand.exec, hv, hres, hl]
  · constructor <;> simp [Loggly.ListCommand.exec, hv, hres]
  · constructor <;> simp [Loggly.ListCommand.exec, hv, hres, hl]
  · constructor <;> simp [Ftp.DescribeCommand.exec, hv, hres]
  · constructor <;> simp [Ftp.DescribeCommand.exec, hv, hres, hl]
  · constructor <;> simp [Snippet.UpdateCommand.exec, hres]
  · constructor <;> simp [Snippet.UpdateCommand.exec, hres, hd, hci, hu]
  · constructor <;> simp [Snippet.UpdateCommand.exec, hres, hd, hci, hu]

/-- Witness for the amended C6 at a concrete run whose resolver fails. -/
theorem c6_witness :
    (splunkCmd0.exec envResolverFail).errLog =
      [LogEntry.addWithContext (.external "resolver down")
        [("Service ID", .str "sv-partial"), ("Service Version", .versionCtx none)]] ∧
    (splunkCmd0.exec envResolverFail).ret = some (.external "resolver down") :=
  c6_error_logging_amended.1 splunkCmd0 envResolverFail "sv-partial" none
    (.external "resolver down") rfl rfl
